import Mathlib

/-!
Verification of the Ethereal Balance storefront core against its
specification.

The development shallowly embeds the three core components of the
repository (the client cart module `js/cart.js`, the server-side checkout
validator `functions/index.js : createCheckoutSession`, and the webhook
reconciler `functions/index.js : stripeWebhook`) as pure Lean functions
over explicit state, and proves or refutes the frozen claims about them.

Modelling conventions:
- Firestore collections are association lists / plain lists; a document
  `add` appends, a document `update` replaces the entry in place.
- JavaScript exceptions are modelled as `Except` values or, where the
  source catches and swallows them, as explicit boolean success flags.
- JavaScript string truthiness (empty string is falsy) is modelled
  explicitly where the source relies on it.
- Machine integers are `Int`; the source performs only integer
  arithmetic on prices and quantities.
- Wall-clock timestamps (`Date.now()`, Firestore server timestamps) are
  not modelled; no claim depends on them.
-/

/-! ## Data model (spec section 3, `functions/index.js` and `js/cart.js`) -/

/-- A product document in the `products` Firestore collection.
Fields as read by `functions/index.js` and `js/shop.js`:
name, price (integer minor units), category ("physical" / "digital" /
"service"), inventory (`-1` = unlimited), isActive, images,
digitalFileUrl (optional, used for digital delivery). -/
structure Product where
  name : String
  price : Int
  category : String
  inventory : Int
  isActive : Bool
  images : List String
  digitalFileUrl : Option String
  deriving Repr, DecidableEq

/-- The `products` collection: documents keyed by product id. -/
abbrev ProductStore := List (String × Product)

/-- Firestore `doc(pid).get()` on the products collection. -/
def lookupProduct (prods : ProductStore) (pid : String) : Option Product :=
  match prods with
  | [] => none
  | (k, v) :: rest => if k == pid then some v else lookupProduct rest pid

/-- Firestore `transaction.update` on a single product document:
replaces the document stored at the given id (first matching key). -/
def updateProduct (prods : ProductStore) (pid : String) (p : Product) : ProductStore :=
  match prods with
  | [] => []
  | (k, v) :: rest =>
      if k == pid then (k, p) :: rest else (k, v) :: updateProduct rest pid p

/-! ## Cart module (`js/cart.js`) -/

namespace Cart

/-- A line of the persisted cart (`js/cart.js`, `addItem` push at lines
30-37): snapshot of the product plus quantity. -/
structure CartItem where
  productId : String
  name : String
  price : Int
  quantity : Int
  category : String
  image : String
  deriving Repr, DecidableEq

/-- The persisted cart object `{ items: [...] }`.  The `updatedAt`
timestamp is not modelled. -/
structure CartState where
  items : List CartItem
  deriving Repr, DecidableEq

/-- The empty cart `{ items: [] }` that `getCart` falls back to. -/
def emptyCart : CartState := ⟨[]⟩

/-- A shop product object as passed to `Cart.addItem` (it carries its
document id, unlike the raw `Product` document). -/
structure ShopProduct where
  id : String
  name : String
  price : Int
  category : String
  images : List String
  deriving Repr, DecidableEq

/-- Source `js/cart.js` `getCart()` (lines 8-15): read the stored string; a
missing record or an empty (falsy) string yields the empty cart; a parse
failure is caught and yields the empty cart; otherwise the parsed cart is
returned.  `JSON.parse` composed with the cart object shape is abstracted
as the `parse` argument; a thrown exception is its `.error` case. -/
def getCart (parse : String → Except String CartState) (stored : Option String) : CartState :=
  match stored with
  | none => emptyCart
  | some data =>
      if data == "" then emptyCart
      else
        match parse data with
        | .ok c => c
        | .error _ => emptyCart

/-- Helper for `addItem`'s existing-line branch (`existing.quantity +=
quantity` mutates the first line found by `find`): add `q` to the
quantity of the first line whose productId matches. -/
def bumpQty (items : List CartItem) (pid : String) (q : Int) : List CartItem :=
  match items with
  | [] => []
  | i :: rest =>
      if i.productId == pid then { i with quantity := i.quantity + q } :: rest
      else i :: bumpQty rest pid q

/-- Source `js/cart.js` `addItem(product, quantity)` (lines 23-42): if a line
with the product's id exists, increment its quantity by the argument;
otherwise append a snapshot line with the given quantity.
`(product.images && product.images[0]) || ''` is the head of the image
list defaulting to the empty string. -/
def addItem (cart : CartState) (product : ShopProduct) (quantity : Int) : CartState :=
  if cart.items.any (fun i => i.productId == product.id) then
    ⟨bumpQty cart.items product.id quantity⟩
  else
    ⟨cart.items ++ [{ productId := product.id, name := product.name,
                      price := product.price, quantity := quantity,
                      category := product.category,
                      image := product.images.headD "" }]⟩

/-- Source `js/cart.js` `removeItem(productId)` (lines 44-48): filter out every
line with the given product id. -/
def removeItem (cart : CartState) (pid : String) : CartState :=
  ⟨cart.items.filter (fun i => !(i.productId == pid))⟩

/-- Helper for `updateQuantity`'s set branch (`item.quantity = quantity`
mutates the first line found by `find`). -/
def setQty (items : List CartItem) (pid : String) (q : Int) : List CartItem :=
  match items with
  | [] => []
  | i :: rest =>
      if i.productId == pid then { i with quantity := q } :: rest
      else i :: setQty rest pid q

/-- Source `js/cart.js` `updateQuantity(productId, quantity)` (lines 50-61): if
no line matches, do nothing; otherwise a quantity ≤ 0 removes the line
and a positive quantity overwrites it. -/
def updateQuantity (cart : CartState) (pid : String) (quantity : Int) : CartState :=
  if cart.items.any (fun i => i.productId == pid) then
    if quantity ≤ 0 then removeItem cart pid
    else ⟨setQty cart.items pid quantity⟩
  else cart

/-- Source `js/cart.js` `clear()` (lines 73-76): removes the stored record, so
the next read yields the empty cart. -/
def clear : CartState := emptyCart

/-- The CartItem invariant from the spec data model: every persisted
line has quantity ≥ 1. -/
def quantityInvariant (cart : CartState) : Prop :=
  ∀ i ∈ cart.items, 1 ≤ i.quantity

instance (cart : CartState) : Decidable (quantityInvariant cart) := by
  unfold quantityInvariant; infer_instance

end Cart

/-! ## Order Validator & Session Builder
(`functions/index.js : createCheckoutSession`, lines 58-183) -/

/-- An element of the request body's `items` array.  `productId` and
`quantity` may be absent (`none`); the source ignores every other field,
but a client may also send forged `price` / `name` fields, which we keep
in the model to state the price-integrity hyperproperty. -/
structure ReqItem where
  productId : Option String
  quantity : Option Int
  clientPrice : Option Int
  clientName : Option String
  deriving Repr, DecidableEq

/-- The POST body `{items, successUrl, cancelUrl}`; each field may be
absent.  (A non-array `items` value behaves like an absent one: both are
rejected by the `!items || !Array.isArray(items)` test.) -/
structure CheckoutRequest where
  items : Option (List ReqItem)
  successUrl : Option String
  cancelUrl : Option String
  deriving Repr, DecidableEq

/-- A Stripe line item as built at lines 130-144: server-fetched name,
first image, server-fetched unit price, client quantity. -/
structure LineItem where
  name : String
  images : List String
  unit_amount : Int
  quantity : Int
  deriving Repr, DecidableEq

/-- An order-items snapshot entry as built at lines 146-152 and embedded
in the session metadata. -/
structure OrderItem where
  productId : String
  name : String
  price : Int
  quantity : Int
  category : String
  deriving Repr, DecidableEq

/-- The checkout session configuration assembled at lines 156-173.
`metaOrderItems` models `metadata.orderItems` (the source stores its
JSON serialization). -/
structure SessionConfig where
  line_items : List LineItem
  success_url : String
  cancel_url : String
  shippingCollected : Bool
  metaOrderItems : List OrderItem
  deriving Repr, DecidableEq

/-- JavaScript truthiness of an optional string: absent and `""` are
falsy. -/
def truthyStr (s : Option String) : Bool :=
  match s with
  | none => false
  | some v => !(v == "")

/-- The per-item guard at line 90: `!item.productId || !item.quantity ||
item.quantity < 1` (a missing or empty productId, a missing or zero
quantity — both falsy — or a quantity below 1). -/
def itemInvalid (i : ReqItem) : Bool :=
  !(truthyStr i.productId) ||
  (match i.quantity with
   | none => true
   | some q => decide (q < 1))

/-- The image list `product.images && product.images.length > 0 ?
[product.images[0]] : []` at lines 135-138. -/
def firstImage (images : List String) : List String :=
  match images with
  | [] => []
  | x :: _ => [x]

/-- The validation loop body (lines 89-153), as a recursion over the
items list.  After the `itemInvalid` guard the productId and quantity
are known present, so reading them with a default mirrors the source's
direct property access.  Returns either the 400-status error the loop responds with,
or the accumulated `(lineItems, orderItems, hasPhysical)`; the second
component of the pair records the product ids fetched from the Catalog
Store (`db.collection("products").doc(..).get()`), in order. -/
def processItems (store : ProductStore) : List ReqItem →
    Except (Nat × String) (List LineItem × List OrderItem × Bool) × List String
  | [] => (.ok ([], [], false), [])
  | item :: rest =>
      if itemInvalid item then (.error (400, "Invalid item data"), [])
      else
        let pid := item.productId.getD ""
        let q := item.quantity.getD 0
        match lookupProduct store pid with
        | none => (.error (400, "Product not found: " ++ pid), [pid])
        | some product =>
            if !product.isActive then
              (.error (400, product.name ++ " is no longer available"), [pid])
            else if product.category == "physical" && product.inventory != -1
                    && product.inventory < q then
              (.error (400, product.name ++ " only has " ++ toString product.inventory
                             ++ " left in stock"), [pid])
            else
              match processItems store rest with
              | (.error e, reads) => (.error e, pid :: reads)
              | (.ok (lis, ois, hasPhysical), reads) =>
                  (.ok ({ name := product.name, images := firstImage product.images,
                          unit_amount := product.price, quantity := q } :: lis,
                        { productId := pid, name := product.name,
                          price := product.price, quantity := q,
                          category := product.category } :: ois,
                        (product.category == "physical") || hasPhysical),
                   pid :: reads)

/-- Function `createCheckoutSession` (lines 58-183), up to the call to the Stripe
API: the request-shape rejections at lines 74-82, then the validation
loop, then the session configuration of lines 156-173.  The result is
paired with the list of Catalog Store reads performed. -/
def createCheckoutSession (store : ProductStore) (req : CheckoutRequest) :
    Except (Nat × String) SessionConfig × List String :=
  match req.items with
  | none => (.error (400, "No items provided"), [])
  | some items =>
      if items.isEmpty then (.error (400, "No items provided"), [])
      else if !(truthyStr req.successUrl) || !(truthyStr req.cancelUrl) then
        (.error (400, "Missing redirect URLs"), [])
      else
        match processItems store items with
        | (.error e, reads) => (.error e, reads)
        | (.ok (lis, ois, hasPhysical), reads) =>
            (.ok { line_items := lis,
                   success_url := req.successUrl.getD "",
                   cancel_url := req.cancelUrl.getD "",
                   shippingCollected := hasPhysical,
                   metaOrderItems := ois }, reads)

/-- The projection of a request item to the only fields the server
reads: productId and quantity. -/
def serverView (i : ReqItem) : Option String × Option Int :=
  (i.productId, i.quantity)

/-- Helper for `hasSub`: does the pattern occur at some position of the
character list? -/
def hasSubAux (pat : List Char) : List Char → Bool
  | [] => pat.isEmpty
  | c :: rest => pat.isPrefixOf (c :: rest) || hasSubAux pat rest

/-- Substring test used to settle the spec's quoted error-message text:
`hasSub s pat` is true when `pat` occurs contiguously inside `s`. -/
def hasSub (s pat : String) : Bool :=
  hasSubAux pat.data s.data

/-! ## Webhook Reconciler (`functions/index.js : stripeWebhook`,
lines 190-374) -/

/-- An order document as written to the `orders` collection at lines
213-231.  The always-null tracking fields, the address fields, the empty
notes string and the server timestamps are not modelled; every field a
claim mentions is present. -/
structure Order where
  stripeSessionId : String
  stripePaymentIntentId : String
  customerEmail : String
  customerName : String
  items : List OrderItem
  subtotal : Int
  shipping : Int
  total : Int
  status : String
  digitalDelivered : Bool
  deriving Repr, DecidableEq

/-- A document of the `mail` collection (the Trigger Email queue).  The
HTML body is abstracted to its variable content: the download links it
embeds (`links` is empty for the confirmation message). -/
structure MailMsg where
  «to» : String
  subject : String
  links : List (String × String)
  deriving Repr, DecidableEq

/-- The `checkout.session.completed` event payload fields read by the
handler.  `orderItems` models `JSON.parse(session.metadata.orderItems)`,
the snapshot the validator embedded at line 164. -/
structure Session where
  id : String
  payment_intent : String
  customerEmail : String
  customerName : String
  orderItems : List OrderItem
  amount_subtotal : Int
  amount_shipping : Int
  amount_total : Int
  deriving Repr, DecidableEq

/-- The Firestore state the webhook touches: the `products`, `orders`
and `mail` collections. -/
structure StoreState where
  products : ProductStore
  orders : List Order
  mail : List MailMsg
  deriving Repr, DecidableEq

/-- One pass of the inventory loop body (lines 236-252): for a
physical-category item, run a transaction that reads the product and,
when it exists and its inventory is not the `-1` unlimited sentinel,
overwrites inventory with `inventory - quantity`.  No other item
category and no absent product is touched.  Note the transaction places
no lower bound on the result. -/
def decrementFor (prods : ProductStore) (item : OrderItem) : ProductStore :=
  if item.category == "physical" then
    match lookupProduct prods item.productId with
    | some p =>
        if p.inventory != -1 then
          updateProduct prods item.productId { p with inventory := p.inventory - item.quantity }
        else prods
    | none => prods
  else prods

/-- The deliverable download URL of a product id (lines 309-318): the
product document must exist and its `digitalFileUrl` must be truthy
(present and non-empty). -/
def deliverableUrl (prods : ProductStore) (pid : String) : Option String :=
  match lookupProduct prods pid with
  | some p =>
      match p.digitalFileUrl with
      | some u => if u == "" then none else some u
      | none => none
  | none => none

/-- The `downloadLinks` list built at lines 307-319: for each
digital-category item, the pair of its snapshot name and its product's
deliverable URL; items whose product is missing or has no truthy
`digitalFileUrl` are skipped. -/
def downloadLinksFor (prods : ProductStore) (items : List OrderItem) : List (String × String) :=
  (items.filter (fun i => i.category == "digital")).filterMap
    (fun i => (deliverableUrl prods i.productId).map (fun u => (i.name, u)))

/-- The order document assembled at lines 213-231 (status "paid",
digitalDelivered false; tracking/address/notes/timestamp fields are not
modelled). -/
def newOrderFor (sess : Session) : Order :=
  { stripeSessionId := sess.id, stripePaymentIntentId := sess.payment_intent,
    customerEmail := sess.customerEmail, customerName := sess.customerName,
    items := sess.orderItems, subtotal := sess.amount_subtotal,
    shipping := sess.amount_shipping, total := sess.amount_total,
    status := "paid", digitalDelivered := false }

/-- The `checkout.session.completed` branch of the webhook handler
(lines 206-356), happy path except for the download-links mail write:
1. `orders.add` appends a new order document (status "paid",
   digitalDelivered false) — unconditionally: no lookup of an existing
   order for the session id precedes it;
2. the inventory loop folds `decrementFor` over the order items;
3. the confirmation message is added to `mail`;
4. if there are digital items with deliverable URLs, the download-links
   message is added to `mail` and the order document is updated with
   `digitalDelivered: true`.
`newId` is the Firestore-generated id of the new order document (its
position in the list plays the role of the document reference);
`mailOk = false` means the download-links `mail.add` throws, which the
`catch` at line 353 swallows, so the `digitalDelivered` update at line
350 never runs. -/
def processCheckoutCompleted (sess : Session) (newId : String) (mailOk : Bool)
    (st : StoreState) : StoreState :=
  let orderItems := sess.orderItems
  let idx := st.orders.length
  let newOrder : Order := newOrderFor sess
  let orders1 := st.orders ++ [newOrder]
  let products1 := orderItems.foldl decrementFor st.products
  let orderIdDisplay := (newId.take 8).toUpper
  let confMail : MailMsg :=
    { «to» := sess.customerEmail,
      subject := "Ethereal Balance - Order Confirmation #" ++ orderIdDisplay,
      links := [] }
  let mail1 := st.mail ++ [confMail]
  let digitalItems := orderItems.filter (fun i => i.category == "digital")
  if digitalItems.length > 0 then
    let downloadLinks := downloadLinksFor products1 orderItems
    if downloadLinks.length > 0 then
      if mailOk then
        let dlMail : MailMsg :=
          { «to» := sess.customerEmail,
            subject := "Ethereal Balance - Your Digital Downloads",
            links := downloadLinks }
        { products := products1,
          orders := orders1.set idx { newOrder with digitalDelivered := true },
          mail := mail1 ++ [dlMail] }
      else
        { products := products1, orders := orders1, mail := mail1 }
    else
      { products := products1, orders := orders1, mail := mail1 }
  else
    { products := products1, orders := orders1, mail := mail1 }

/-- A webhook request: the event (with its type tag) reaches the handler
only when `sigValid` holds, i.e. when `stripe.webhooks.constructEvent`
accepts the signature. -/
structure WebhookEvent where
  type : String
  session : Session
  deriving Repr, DecidableEq

/-- The full `stripeWebhook` handler (lines 190-374): a failed signature
verification responds 400 before any processing (lines 196-202);
otherwise the event is dispatched and the handler responds
`200 {received: true}` at line 373 — the `try`/`catch` around the
`checkout.session.completed` branch (lines 209-355) only logs processing
errors, so the 200 acknowledgement is sent whether or not processing
(modelled here: the download-links mail write, `mailOk`) threw.  Returns
the HTTP status paired with the resulting store state. -/
def stripeWebhook (sigValid : Bool) (ev : WebhookEvent) (newId : String) (mailOk : Bool)
    (st : StoreState) : Nat × StoreState :=
  if !sigValid then (400, st)
  else
    match ev.type with
    | "checkout.session.completed" => (200, processCheckoutCompleted ev.session newId mailOk st)
    | _ => (200, st)

/-- Orders recorded for a given payment session id. -/
def ordersForSession (st : StoreState) (sid : String) : List Order :=
  st.orders.filter (fun o => o.stripeSessionId == sid)

/-! ## Concrete inputs used by the closed theorems -/

/-- An active physical product with five units in stock. -/
def widgetProduct : Product :=
  { name := "Widget", price := 500, category := "physical", inventory := 5,
    isActive := true, images := [], digitalFileUrl := none }

/-- A completed-checkout session for one Widget. -/
def widgetSession : Session :=
  { id := "cs_1", payment_intent := "pi_1", customerEmail := "a@b.c",
    customerName := "A",
    orderItems := [{ productId := "p1", name := "Widget", price := 500,
                     quantity := 1, category := "physical" }],
    amount_subtotal := 500, amount_shipping := 0, amount_total := 500 }

/-- Initial store: one Widget product, no orders, no mail. -/
def widgetState : StoreState := { products := [("p1", widgetProduct)], orders := [], mail := [] }

/-- An active physical product with exactly two units in stock. -/
def gadgetProduct : Product :=
  { name := "Gadget", price := 900, category := "physical", inventory := 2,
    isActive := true, images := [], digitalFileUrl := none }

/-- A completed-checkout session for two Gadgets (the validator accepts
quantity 2 against inventory 2). -/
def gadgetSession1 : Session :=
  { id := "cs_b1", payment_intent := "pi_b1", customerEmail := "", customerName := "",
    orderItems := [{ productId := "q1", name := "Gadget", price := 900,
                     quantity := 2, category := "physical" }],
    amount_subtotal := 1800, amount_shipping := 0, amount_total := 1800 }

/-- A second, distinct session for two Gadgets. -/
def gadgetSession2 : Session := { gadgetSession1 with id := "cs_b2", payment_intent := "pi_b2" }

/-- Initial store: one Gadget product with inventory 2. -/
def gadgetState : StoreState := { products := [("q1", gadgetProduct)], orders := [], mail := [] }

/-- A digital product with a deliverable download URL. -/
def ebookProduct : Product :=
  { name := "EBook", price := 700, category := "digital", inventory := -1,
    isActive := true, images := [], digitalFileUrl := some "https://x/f.pdf" }

/-- A completed-checkout session for one EBook. -/
def ebookSession : Session :=
  { id := "cs_d", payment_intent := "pi_d", customerEmail := "d@e.f", customerName := "D",
    orderItems := [{ productId := "d1", name := "EBook", price := 700,
                     quantity := 1, category := "digital" }],
    amount_subtotal := 700, amount_shipping := 0, amount_total := 700 }

/-- Initial store: one EBook product. -/
def ebookState : StoreState := { products := [("d1", ebookProduct)], orders := [], mail := [] }

/-- A shop product used by the cart theorems. -/
def demoShopProduct : Cart.ShopProduct :=
  { id := "p", name := "N", price := 100, category := "digital", images := [] }

/-! ## Claims about the Webhook Reconciler -/

/-- C1: the claim says delivering the identical verified
`checkout.session.completed` event twice creates exactly one Order
keyed by the payment-session id and one inventory decrement per item.
The code performs an unconditional `orders.add` with no lookup of the
session id: delivering the Widget session event twice leaves two order
documents for session "cs_1" (not one) and decrements the Widget's
inventory twice, from 5 to 3. -/
theorem claim_C1_no_dedupe_two_orders :
    (ordersForSession
        (processCheckoutCompleted widgetSession "ORDER_B2" true
          (processCheckoutCompleted widgetSession "ORDER_A1" true widgetState)) "cs_1").length = 2
    ∧ (lookupProduct
        (processCheckoutCompleted widgetSession "ORDER_B2" true
          (processCheckoutCompleted widgetSession "ORDER_A1" true widgetState)).products "p1").map
        (fun p => p.inventory) = some 3
    ∧ ¬ (ordersForSession
        (processCheckoutCompleted widgetSession "ORDER_B2" true
          (processCheckoutCompleted widgetSession "ORDER_A1" true widgetState)) "cs_1").length = 1 := by
  decide

/-- C2: the claim says a verified request whose processing raises an
error gets a retryable non-2xx response.  The code's signature check
does respond 400 on verification failure (first conjunct), but the
`try`/`catch` around the `checkout.session.completed` branch swallows
processing errors and the handler still acknowledges with 200: here the
download-links mail write throws (`mailOk = false`) and the response is
200, so the provider never redelivers. -/
theorem claim_C2_processing_error_acked_200 :
    (∀ (ev : WebhookEvent) (newId : String) (mailOk : Bool) (st : StoreState),
        (stripeWebhook false ev newId mailOk st).1 = 400)
    ∧ (stripeWebhook true { type := "checkout.session.completed", session := ebookSession }
        "ORDER_D" false ebookState).1 = 200 := by
  exact ⟨fun ev newId mailOk st => rfl, by decide⟩

/-- C4: the claim says the transactional decrement never drives a
finite inventory below zero.  The transaction at lines 239-250 performs
`inventory - quantity` with no floor check: reconciling two orders of
quantity 2 each (both individually accepted by the validator when
inventory was 2) drives the Gadget's inventory to -2. -/
theorem claim_C4_inventory_below_zero :
    (lookupProduct
        (processCheckoutCompleted gadgetSession2 "ORDER_Y" true
          (processCheckoutCompleted gadgetSession1 "ORDER_X" true gadgetState)).products "q1").map
      (fun p => p.inventory) = some (-2)
    ∧ (-2 : Int) < 0 := by
  decide

/-! ## Claims about the Cart -/

/-- C8 counterexample: the claim says `addItem` with any quantity
argument preserves the quantity ≥ 1 invariant.  Starting from the empty
cart (which satisfies the invariant), `addItem` with quantity 0 pushes
a line with quantity 0, violating it. -/
theorem claim_C8_counterexample :
    Cart.quantityInvariant Cart.emptyCart
    ∧ ¬ Cart.quantityInvariant (Cart.addItem Cart.emptyCart demoShopProduct 0) := by
  decide

/-- Helper: `bumpQty` preserves the quantity invariant when the added
quantity is at least 1. -/
theorem Cart.bumpQty_quantity (items : List Cart.CartItem) (pid : String) (q : Int)
    (h : ∀ i ∈ items, 1 ≤ i.quantity) (hq : 1 ≤ q) :
    ∀ i ∈ Cart.bumpQty items pid q, 1 ≤ i.quantity := by
  induction items with
  | nil => simp [Cart.bumpQty]
  | cons a rest ih =>
      have ha : 1 ≤ a.quantity := h a (by simp)
      have hrest : ∀ i ∈ rest, 1 ≤ i.quantity := fun i hi => h i (by simp [hi])
      unfold Cart.bumpQty
      split
      · intro i hi
        rcases List.mem_cons.mp hi with hEq | hMem
        · subst hEq; simpa using le_trans (by omega : (1 : Int) ≤ a.quantity + q) (le_refl _)
        · exact hrest i hMem
      · intro i hi
        rcases List.mem_cons.mp hi with hEq | hMem
        · subst hEq; exact ha
        · exact ih hrest i hMem

/-- Helper: `setQty` preserves the quantity invariant when the new
quantity is at least 1. -/
theorem Cart.setQty_quantity (items : List Cart.CartItem) (pid : String) (q : Int)
    (h : ∀ i ∈ items, 1 ≤ i.quantity) (hq : 1 ≤ q) :
    ∀ i ∈ Cart.setQty items pid q, 1 ≤ i.quantity := by
  induction items with
  | nil => simp [Cart.setQty]
  | cons a rest ih =>
      have ha : 1 ≤ a.quantity := h a (by simp)
      have hrest : ∀ i ∈ rest, 1 ≤ i.quantity := fun i hi => h i (by simp [hi])
      unfold Cart.setQty
      split
      · intro i hi
        rcases List.mem_cons.mp hi with hEq | hMem
        · subst hEq; exact hq
        · exact hrest i hMem
      · intro i hi
        rcases List.mem_cons.mp hi with hEq | hMem
        · subst hEq; exact ha
        · exact ih hrest i hMem

/-- Helper: `removeItem` preserves the quantity invariant. -/
theorem Cart.removeItem_quantity (c : Cart.CartState) (pid : String)
    (h : Cart.quantityInvariant c) :
    Cart.quantityInvariant (Cart.removeItem c pid) := by
  intro i hi
  exact h i (List.mem_of_mem_filter hi)

/-- C8 amended: the claim holds once `addItem` is restricted to a
quantity argument ≥ 1 (the only quantities the shop UI ever passes):
`addItem` with quantity ≥ 1, `updateQuantity` with any quantity
(non-positive quantities remove the line), `removeItem` and `clear` all
preserve the invariant that every persisted line has quantity ≥ 1. -/
theorem claim_C8_cart_invariant_preserved (c : Cart.CartState) (p : Cart.ShopProduct)
    (pid : String) (q : Int) (h : Cart.quantityInvariant c) :
    (1 ≤ q → Cart.quantityInvariant (Cart.addItem c p q))
    ∧ Cart.quantityInvariant (Cart.updateQuantity c pid q)
    ∧ Cart.quantityInvariant (Cart.removeItem c pid)
    ∧ Cart.quantityInvariant Cart.clear := by
  refine ⟨?_, ?_, Cart.removeItem_quantity c pid h, ?_⟩
  · intro hq
    unfold Cart.addItem
    split
    · exact Cart.bumpQty_quantity c.items p.id q h hq
    · intro i hi
      rcases List.mem_append.mp hi with hMem | hNew
      · exact h i hMem
      · simp at hNew; subst hNew; exact hq
  · unfold Cart.updateQuantity
    split
    · split
      · exact Cart.removeItem_quantity c pid h
      · rename_i hq
        exact Cart.setQty_quantity c.items pid q h (by omega)
    · exact h
  · intro i hi
    simp [Cart.clear, Cart.emptyCart] at hi

/-- C8 witness: the amended preservation theorem applied at the empty
cart with a concrete product and quantities 2 and 0. -/
theorem claim_C8_cart_invariant_witness :
    Cart.quantityInvariant (Cart.addItem Cart.emptyCart demoShopProduct 2)
    ∧ Cart.quantityInvariant (Cart.updateQuantity Cart.emptyCart "p" 0) :=
  ⟨(claim_C8_cart_invariant_preserved Cart.emptyCart demoShopProduct "p" 2 (by decide)).1
      (by decide),
   (claim_C8_cart_invariant_preserved Cart.emptyCart demoShopProduct "p" 0 (by decide)).2.1⟩

/-- C9: reading the persisted cart never throws.  `getCart` is a total
function into `CartState`: a missing record yields the empty cart, a
stored string whose parse throws yields the empty cart (the exception is
caught), and in every case the result is either the empty cart or the
successfully parsed cart — never a propagated error. -/
theorem claim_C9_getcart_never_throws (parse : String → Except String Cart.CartState)
    (stored : Option String) :
    (stored = none → Cart.getCart parse stored = Cart.emptyCart)
    ∧ (∀ s msg, stored = some s → parse s = .error msg →
        Cart.getCart parse stored = Cart.emptyCart)
    ∧ (Cart.getCart parse stored = Cart.emptyCart
        ∨ ∃ s c, stored = some s ∧ parse s = .ok c ∧ Cart.getCart parse stored = c) := by
  refine ⟨?_, ?_, ?_⟩
  · intro h; subst h; rfl
  · intro s msg hs hp
    subst hs
    by_cases hse : s == ""
    · simp [Cart.getCart, hse]
    · simp [Cart.getCart, hse, hp]
  · cases stored with
    | none => exact Or.inl rfl
    | some s =>
        unfold Cart.getCart
        by_cases hs : s == ""
        · simp [hs]
        · cases hp : parse s with
          | error msg => simp [hs, hp]
          | ok c =>
              right
              exact ⟨s, c, rfl, hp, by simp [hs, hp]⟩

/-- A concrete stand-in for `JSON.parse` restricted to cart shapes: it
throws on the corrupted string and succeeds on one well-formed value. -/
def demoParse : String → Except String Cart.CartState :=
  fun s =>
    if s = "corrupted" then .error "SyntaxError"
    else .ok ⟨[{ productId := "p", name := "N", price := 100, quantity := 2,
                 category := "digital", image := "" }]⟩

/-- C9 witness: the totality theorem applied to a missing record and to
a corrupted stored string. -/
theorem claim_C9_getcart_witness :
    Cart.getCart demoParse none = Cart.emptyCart
    ∧ Cart.getCart demoParse (some "corrupted") = Cart.emptyCart :=
  ⟨(claim_C9_getcart_never_throws demoParse none).1 rfl,
   (claim_C9_getcart_never_throws demoParse (some "corrupted")).2.1 "corrupted" "SyntaxError"
     rfl rfl⟩

/-! ## Frame lemmas for the inventory transaction -/

/-- Updating one product document leaves every other id's lookup
unchanged. -/
theorem lookupProduct_updateProduct_ne (l : ProductStore) (target : String) (p : Product)
    (pid : String) (h : target ≠ pid) :
    lookupProduct (updateProduct l target p) pid = lookupProduct l pid := by
  induction l with
  | nil => rfl
  | cons kv rest ih =>
      obtain ⟨k, v⟩ := kv
      cases hk : (k == target) with
      | true =>
          have hkEq : k = target := beq_iff_eq.mp hk
          subst hkEq
          have hkp : (k == pid) = false := beq_eq_false_iff_ne.mpr h
          simp [lookupProduct, updateProduct, hk, hkp]
      | false =>
          cases hp2 : (k == pid) with
          | true => simp [lookupProduct, updateProduct, hk, hp2]
          | false => simp [lookupProduct, updateProduct, hk, hp2, ih]

/-- Updating a present product document makes its lookup return the new
document. -/
theorem lookupProduct_updateProduct_eq (l : ProductStore) (target : String) (p q : Product)
    (h : lookupProduct l target = some q) :
    lookupProduct (updateProduct l target p) target = some p := by
  induction l with
  | nil => simp [lookupProduct] at h
  | cons kv rest ih =>
      obtain ⟨k, v⟩ := kv
      cases hk : (k == target) with
      | true => simp [lookupProduct, updateProduct, hk]
      | false =>
          simp only [lookupProduct, updateProduct, hk] at h ⊢
          simp only [Bool.false_eq_true, if_false] at h ⊢
          exact ih h

/-- One inventory-loop pass leaves any product with the unlimited
sentinel `-1` exactly as it was. -/
theorem decrementFor_preserves_unlimited (prods : ProductStore) (item : OrderItem)
    (pid : String) (p : Product) (h1 : lookupProduct prods pid = some p)
    (h2 : p.inventory = -1) :
    lookupProduct (decrementFor prods item) pid = some p := by
  unfold decrementFor
  cases hc : (item.category == "physical") with
  | false => simpa [hc] using h1
  | true =>
      simp only [hc, if_true]
      cases hl : lookupProduct prods item.productId with
      | none => exact h1
      | some p2 =>
          dsimp only
          by_cases hfin : p2.inventory = -1
          · rw [if_neg (by simp [hfin])]
            exact h1
          · rw [if_pos (by simp [hfin])]
            by_cases hpid : item.productId = pid
            · subst hpid
              rw [h1] at hl
              injection hl with hl
              subst hl
              exact absurd h2 hfin
            · rw [lookupProduct_updateProduct_ne prods item.productId _ pid hpid]
              exact h1

/-- The whole inventory loop leaves any product with the unlimited
sentinel `-1` exactly as it was. -/
theorem foldl_decrementFor_preserves_unlimited (items : List OrderItem)
    (prods : ProductStore) (pid : String) (p : Product)
    (h1 : lookupProduct prods pid = some p) (h2 : p.inventory = -1) :
    lookupProduct (items.foldl decrementFor prods) pid = some p := by
  induction items generalizing prods with
  | nil => exact h1
  | cons item rest ih =>
      exact ih (decrementFor prods item)
        (decrementFor_preserves_unlimited prods item pid p h1 h2)

/-- The reconciler only touches the products collection through the
inventory loop. -/
theorem processCheckoutCompleted_products (sess : Session) (newId : String) (mailOk : Bool)
    (st : StoreState) :
    (processCheckoutCompleted sess newId mailOk st).products
      = sess.orderItems.foldl decrementFor st.products := by
  dsimp only [processCheckoutCompleted]
  repeat' split
  all_goals rfl

/-- C5: a product whose inventory is the unlimited sentinel `-1` is
never decremented: reconciling any completed session — whatever the
item categories and quantities — leaves that product's document (hence
its inventory field, still `-1`) unchanged. -/
theorem claim_C5_unlimited_inventory_unchanged (sess : Session) (newId : String)
    (mailOk : Bool) (st : StoreState) (pid : String) (p : Product)
    (h1 : lookupProduct st.products pid = some p) (h2 : p.inventory = -1) :
    lookupProduct (processCheckoutCompleted sess newId mailOk st).products pid = some p := by
  rw [processCheckoutCompleted_products]
  exact foldl_decrementFor_preserves_unlimited sess.orderItems st.products pid p h1 h2

/-- C5 witness: the preservation theorem applied to the EBook store
(inventory `-1`) and a session purchasing three EBooks. -/
theorem claim_C5_unlimited_inventory_witness :
    lookupProduct (processCheckoutCompleted
        { ebookSession with
            orderItems := [{ productId := "d1", name := "EBook", price := 700,
                             quantity := 3, category := "digital" }] }
        "ORDER_W" true ebookState).products "d1" = some ebookProduct :=
  claim_C5_unlimited_inventory_unchanged _ "ORDER_W" true ebookState "d1" ebookProduct
    (by decide) (by decide)

/-- The inventory transaction rewrites only the inventory field, so the
deliverable download URL of every product id is unchanged by one
inventory-loop pass. -/
theorem deliverableUrl_decrementFor (prods : ProductStore) (item : OrderItem) (pid : String) :
    deliverableUrl (decrementFor prods item) pid = deliverableUrl prods pid := by
  unfold decrementFor
  cases hc : (item.category == "physical") with
  | false => simp [hc]
  | true =>
      simp only [hc, if_true]
      cases hl : lookupProduct prods item.productId with
      | none => rfl
      | some p2 =>
          dsimp only
          by_cases hfin : p2.inventory = -1
          · rw [if_neg (by simp [hfin])]
          · rw [if_pos (by simp [hfin])]
            by_cases hpid : item.productId = pid
            · subst hpid
              unfold deliverableUrl
              rw [hl, lookupProduct_updateProduct_eq prods item.productId _ p2 hl]
            · unfold deliverableUrl
              rw [lookupProduct_updateProduct_ne prods item.productId _ pid hpid]

/-- The whole inventory loop preserves every deliverable download
URL. -/
theorem deliverableUrl_foldl_decrementFor (extra : List OrderItem) (prods : ProductStore)
    (pid : String) :
    deliverableUrl (extra.foldl decrementFor prods) pid = deliverableUrl prods pid := by
  induction extra generalizing prods with
  | nil => rfl
  | cons item rest ih =>
      calc deliverableUrl ((item :: rest).foldl decrementFor prods) pid
          = deliverableUrl (rest.foldl decrementFor (decrementFor prods item)) pid := rfl
        _ = deliverableUrl (decrementFor prods item) pid := ih (decrementFor prods item)
        _ = deliverableUrl prods pid := deliverableUrl_decrementFor prods item pid

/-- The download-links list is insensitive to the inventory decrements
performed before it is built. -/
theorem downloadLinksFor_foldl_decrementFor (extra items : List OrderItem)
    (prods : ProductStore) :
    downloadLinksFor (extra.foldl decrementFor prods) items = downloadLinksFor prods items := by
  unfold downloadLinksFor
  exact List.filterMap_congr (fun i _ => by
    rw [deliverableUrl_foldl_decrementFor extra prods i.productId])

/-- The download-links list is non-empty exactly when some
digital-category order item has a deliverable URL. -/
theorem downloadLinksFor_nonempty_iff_any (prods : ProductStore) (items : List OrderItem) :
    (!(downloadLinksFor prods items).isEmpty)
      = items.any (fun i => i.category == "digital" && (deliverableUrl prods i.productId).isSome) := by
  induction items with
  | nil => rfl
  | cons i rest ih =>
      cases hc : (i.category == "digital") with
      | false => simpa [downloadLinksFor, List.filter_cons, hc] using ih
      | true =>
          cases hd : deliverableUrl prods i.productId with
          | none =>
              simpa [downloadLinksFor, List.filter_cons, List.filterMap_cons, hc, hd] using ih
          | some u =>
              simp [downloadLinksFor, List.filter_cons, List.filterMap_cons, hc, hd]

/-- C10: the created order's `digitalDelivered` flag ends up true
exactly when some digital-category item of the order has a deliverable
`digitalFileUrl` on its product document AND the download-links mail
write succeeded; in that and only that case a second mail document is
written (otherwise only the confirmation mail is), and the
download-links list is non-empty exactly when such an item exists — an
order whose digital items all lack a URL is silently skipped and stays
`digitalDelivered = false`. -/
theorem claim_C10_digital_delivered_iff (sess : Session) (newId : String) (mailOk : Bool)
    (st : StoreState) :
    ∃ o : Order,
      (processCheckoutCompleted sess newId mailOk st).orders[st.orders.length]? = some o
      ∧ o.digitalDelivered
          = (!(downloadLinksFor st.products sess.orderItems).isEmpty && mailOk)
      ∧ (processCheckoutCompleted sess newId mailOk st).mail.length
          = st.mail.length
            + (if (!(downloadLinksFor st.products sess.orderItems).isEmpty && mailOk) = true
               then 2 else 1)
      ∧ (!(downloadLinksFor st.products sess.orderItems).isEmpty)
          = sess.orderItems.any
              (fun i => i.category == "digital" && (deliverableUrl st.products i.productId).isSome) := by
  have hG : downloadLinksFor (sess.orderItems.foldl decrementFor st.products) sess.orderItems
      = downloadLinksFor st.products sess.orderItems :=
    downloadLinksFor_foldl_decrementFor sess.orderItems sess.orderItems st.products
  have hAny := downloadLinksFor_nonempty_iff_any st.products sess.orderItems
  dsimp only [processCheckoutCompleted]
  by_cases hd : (sess.orderItems.filter (fun i => i.category == "digital")).length > 0
  · rw [if_pos hd]
    by_cases hl : (downloadLinksFor (sess.orderItems.foldl decrementFor st.products)
        sess.orderItems).length > 0
    · rw [if_pos hl]
      have hne : (downloadLinksFor st.products sess.orderItems).isEmpty = false := by
        rw [← hG]
        exact List.isEmpty_eq_false_iff_exists_mem.mpr
          (List.exists_mem_of_length_pos hl)
      cases hm : mailOk with
      | true =>
          rw [if_pos rfl]
          refine ⟨{ newOrderFor sess with digitalDelivered := true }, ?_, ?_, ?_, hAny⟩
          · rw [List.getElem?_set_self']
            simp [List.getElem?_concat_length]
          · simp [hne]
          · simp [hne]
      | false =>
          rw [if_neg (by simp)]
          refine ⟨newOrderFor sess, ?_, ?_, ?_, hAny⟩
          · exact List.getElem?_concat_length st.orders (newOrderFor sess)
          · simp [newOrderFor]
          · simp [hne]
    · rw [if_neg hl]
      have hnil : downloadLinksFor st.products sess.orderItems = [] := by
        rw [← hG]
        cases hcase : downloadLinksFor (sess.orderItems.foldl decrementFor st.products)
            sess.orderItems with
        | nil => rfl
        | cons a l => rw [hcase] at hl; simp at hl
      refine ⟨newOrderFor sess, ?_, ?_, ?_, hAny⟩
      · exact List.getElem?_concat_length st.orders (newOrderFor sess)
      · simp [newOrderFor, hnil]
      · simp [hnil]
  · rw [if_neg hd]
    have hfil : sess.orderItems.filter (fun i => i.category == "digital") = [] := by
      cases hcase : sess.orderItems.filter (fun i => i.category == "digital") with
      | nil => rfl
      | cons a l => rw [hcase] at hd; simp at hd
    have hnil : downloadLinksFor st.products sess.orderItems = [] := by
      unfold downloadLinksFor
      rw [hfil]
      rfl
    refine ⟨newOrderFor sess, ?_, ?_, ?_, hAny⟩
    · exact List.getElem?_concat_length st.orders (newOrderFor sess)
    · simp [newOrderFor, hnil]
    · simp [hnil]

/-! ## Lemmas about the validation loop -/

/-- A request item that passes the `itemInvalid` guard has a present,
non-empty productId and a present quantity ≥ 1. -/
theorem itemValid_shape (item : ReqItem) (h : ¬ itemInvalid item = true) :
    ∃ pid q, item.productId = some pid ∧ item.quantity = some q ∧ ¬(pid = "") ∧ 1 ≤ q := by
  cases hp : item.productId with
  | none => simp [itemInvalid, truthyStr, hp] at h
  | some pid =>
      cases hq : item.quantity with
      | none => simp [itemInvalid, truthyStr, hp, hq] at h
      | some q =>
          simp [itemInvalid, truthyStr, hp, hq] at h
          exact ⟨pid, q, rfl, rfl, h.1, by omega⟩

/-- When the validation loop accepts, every request item passed all the
guards: present non-empty productId, quantity ≥ 1, product found,
product active, and (for finite-inventory physical products) enough
inventory. -/
theorem processItems_ok_valid (store : ProductStore) (items : List ReqItem)
    (lis : List LineItem) (ois : List OrderItem) (hp : Bool) (reads : List String)
    (h : processItems store items = (.ok (lis, ois, hp), reads)) :
    ∀ item ∈ items, ∃ pid q p,
      item.productId = some pid ∧ item.quantity = some q ∧ ¬(pid = "") ∧ 1 ≤ q
      ∧ lookupProduct store pid = some p ∧ p.isActive = true
      ∧ ¬(p.category = "physical" ∧ p.inventory ≠ -1 ∧ p.inventory < q) := by
  induction items generalizing lis ois hp reads with
  | nil => intro item hmem; simp at hmem
  | cons first rest ih =>
      intro item hmem
      rw [processItems] at h
      split at h
      · simp at h
      · rename_i hinv
        obtain ⟨pid, q, hpq, hq, hpe, hq1⟩ := itemValid_shape first hinv
        rw [hpq, hq] at h
        dsimp only [Option.getD] at h
        split at h
        · simp at h
        · rename_i product hlook
          split at h
          · simp at h
          · rename_i hact
            split at h
            · simp at h
            · rename_i hstock
              split at h
              · simp at h
              · rename_i lis2 ois2 hp2 reads2 hrec
                rcases List.mem_cons.mp hmem with hEq | hMem
                · subst hEq
                  refine ⟨pid, q, product, hpq, hq, hpe, hq1, hlook, ?_, ?_⟩
                  · simpa [Bool.not_eq_true] using hact
                  · intro ⟨hc, hfin, hlt⟩
                    apply hstock
                    simp [hc, hlt]
                    omega
                · exact ih lis2 ois2 hp2 reads2 hrec item hMem

/-- Every rejection produced by the validation loop carries HTTP status
400. -/
theorem processItems_error_400 (store : ProductStore) (items : List ReqItem)
    (e : Nat × String) (reads : List String)
    (h : processItems store items = (.error e, reads)) : e.1 = 400 := by
  induction items generalizing e reads with
  | nil => simp [processItems] at h
  | cons first rest ih =>
      rw [processItems] at h
      split at h
      · rw [Prod.mk.injEq] at h
        obtain ⟨h1, -⟩ := h
        injection h1 with h1
        subst h1
        rfl
      · dsimp only at h
        split at h
        · rw [Prod.mk.injEq] at h
          obtain ⟨h1, -⟩ := h
          injection h1 with h1
          subst h1
          rfl
        · split at h
          · rw [Prod.mk.injEq] at h
            obtain ⟨h1, -⟩ := h
            injection h1 with h1
            subst h1
            rfl
          · split at h
            · rw [Prod.mk.injEq] at h
              obtain ⟨h1, -⟩ := h
              injection h1 with h1
              subst h1
              rfl
            · split at h
              · rename_i e2 reads2 hrec
                rw [Prod.mk.injEq] at h
                obtain ⟨h1, -⟩ := h
                injection h1 with h1
                subst h1
                exact ih e2 reads2 hrec
              · simp at h

/-- The validation loop reads only the productId and quantity of each
request item: its result is determined by the items' server views. -/
theorem processItems_congr (store : ProductStore) (items1 items2 : List ReqItem)
    (h : items1.map serverView = items2.map serverView) :
    processItems store items1 = processItems store items2 := by
  induction items1 generalizing items2 with
  | nil =>
      cases items2 with
      | nil => rfl
      | cons b l2 => simp at h
  | cons a l1 ih =>
      cases items2 with
      | nil => simp at h
      | cons b l2 =>
          simp only [List.map_cons, List.cons.injEq] at h
          obtain ⟨hv, hrest⟩ := h
          have hpid : a.productId = b.productId := congrArg Prod.fst hv
          have hq : a.quantity = b.quantity := congrArg Prod.snd hv
          have hinv : itemInvalid a = itemInvalid b := by
            unfold itemInvalid
            rw [hpid, hq]
          rw [processItems, processItems, hinv, hpid, hq, ih l2 hrest]

/-- Every line item the validation loop builds takes its name and unit
price from a product fetched from the Catalog Store. -/
theorem processItems_ok_line_items (store : ProductStore) (items : List ReqItem)
    (lis : List LineItem) (ois : List OrderItem) (hp : Bool) (reads : List String)
    (h : processItems store items = (.ok (lis, ois, hp), reads)) :
    ∀ li ∈ lis, ∃ pid p, lookupProduct store pid = some p
      ∧ li.unit_amount = p.price ∧ li.name = p.name := by
  induction items generalizing lis ois hp reads with
  | nil =>
      intro li hmem
      rw [processItems, Prod.mk.injEq] at h
      obtain ⟨h1, -⟩ := h
      injection h1 with h1
      obtain ⟨h2, -⟩ := Prod.mk.injEq .. |>.mp h1
      subst h2
      simp at hmem
  | cons first rest ih =>
      intro li hmem
      rw [processItems] at h
      split at h
      · simp at h
      · dsimp only at h
        split at h
        · simp at h
        · rename_i product hlook
          split at h
          · simp at h
          · split at h
            · simp at h
            · split at h
              · simp at h
              · rename_i lis2 ois2 hp2 reads2 hrec
                rw [Prod.mk.injEq] at h
                obtain ⟨h1, -⟩ := h
                injection h1 with h1
                obtain ⟨hli, hrest⟩ := Prod.mk.injEq .. |>.mp h1
                obtain ⟨hoi, -⟩ := Prod.mk.injEq .. |>.mp hrest
                subst hli
                rcases List.mem_cons.mp hmem with hEq | hMem
                · subst hEq
                  exact ⟨first.productId.getD "", product, hlook, rfl, rfl⟩
                · exact ih lis2 ois2 hp2 reads2 (by rw [hrec]) li hMem

/-! ## Claims about the Order Validator & Session Builder -/

/-- C3: price integrity.  First conjunct (non-interference): the
session-creation result depends only on each item's productId and
quantity — two requests whose items agree on those fields (but may
carry arbitrary forged client price / name fields) and whose redirect
URLs agree produce identical results, line items included.  Second
conjunct (provenance): every line item of an accepted request takes its
unit price and name from the product fetched from the Catalog Store at
validation time. -/
theorem claim_C3_price_integrity :
    (∀ (store : ProductStore) (r1 r2 : CheckoutRequest),
        r1.items.map (List.map serverView) = r2.items.map (List.map serverView) →
        r1.successUrl = r2.successUrl → r1.cancelUrl = r2.cancelUrl →
        createCheckoutSession store r1 = createCheckoutSession store r2)
    ∧ (∀ (store : ProductStore) (req : CheckoutRequest) (cfg : SessionConfig)
          (reads : List String),
        createCheckoutSession store req = (.ok cfg, reads) →
        ∀ li ∈ cfg.line_items, ∃ pid p, lookupProduct store pid = some p
          ∧ li.unit_amount = p.price ∧ li.name = p.name) := by
  constructor
  · intro store r1 r2 hitems hsu hcu
    unfold createCheckoutSession
    cases h1 : r1.items with
    | none =>
        cases h2 : r2.items with
        | none => rfl
        | some l2 => rw [h1, h2] at hitems; simp at hitems
    | some l1 =>
        cases h2 : r2.items with
        | none => rw [h1, h2] at hitems; simp at hitems
        | some l2 =>
            rw [h1, h2] at hitems
            simp only [Option.map] at hitems
            injection hitems with hitems
            have hlen : l1.length = l2.length := by
              have := congrArg List.length hitems
              simpa using this
            have hemp : l1.isEmpty = l2.isEmpty := by
              cases l1 <;> cases l2 <;> simp_all
            rw [hsu, hcu]
            dsimp only
            rw [hemp, processItems_congr store l1 l2 hitems]
  · intro store req cfg reads h li hmem
    unfold createCheckoutSession at h
    cases hri : req.items with
    | none => rw [hri] at h; simp at h
    | some items =>
        rw [hri] at h
        dsimp only at h
        split at h
        · simp at h
        · split at h
          · simp at h
          · split at h
            · simp at h
            · rename_i lis ois hasPhysical reads2 hloop
              rw [Prod.mk.injEq] at h
              obtain ⟨h1, -⟩ := h
              injection h1 with h1
              subst h1
              exact processItems_ok_line_items store items lis ois hasPhysical reads2 hloop li hmem

/-- Catalog used by the validator theorems: an active physical product
with two units in stock and an inactive product. -/
def validatorStore : ProductStore :=
  [("rose", { name := "Rose Oil", price := 1500, category := "physical", inventory := 2,
              isActive := true, images := [], digitalFileUrl := none }),
   ("moon", { name := "Moon Candle", price := 800, category := "physical", inventory := 5,
              isActive := false, images := [], digitalFileUrl := none })]

/-- A well-formed request for one Rose Oil with no forged fields. -/
def reqPriceHonest : CheckoutRequest :=
  { items := some [{ productId := some "rose", quantity := some 1,
                     clientPrice := none, clientName := none }],
    successUrl := some "https://s", cancelUrl := some "https://c" }

/-- The same request with a forged client price and name on its item. -/
def reqPriceForged : CheckoutRequest :=
  { items := some [{ productId := some "rose", quantity := some 1,
                     clientPrice := some 1, clientName := some "cheap" }],
    successUrl := some "https://s", cancelUrl := some "https://c" }

/-- The session configuration the validator builds for
`reqPriceHonest`. -/
def roseSessionConfig : SessionConfig :=
  { line_items := [{ name := "Rose Oil", images := [], unit_amount := 1500, quantity := 1 }],
    success_url := "https://s", cancel_url := "https://c", shippingCollected := true,
    metaOrderItems := [{ productId := "rose", name := "Rose Oil", price := 1500,
                         quantity := 1, category := "physical" }] }

/-- C3 witness: the price-integrity theorem applied to the honest and
the price-forged request (identical results) and to the accepted
session's single line item (price and name from the catalog). -/
theorem claim_C3_price_integrity_witness :
    createCheckoutSession validatorStore reqPriceHonest
      = createCheckoutSession validatorStore reqPriceForged
    ∧ ∃ pid p, lookupProduct validatorStore pid = some p
        ∧ ({ name := "Rose Oil", images := [], unit_amount := 1500,
             quantity := 1 } : LineItem).unit_amount = p.price
        ∧ ({ name := "Rose Oil", images := [], unit_amount := 1500,
             quantity := 1 } : LineItem).name = p.name :=
  ⟨claim_C3_price_integrity.1 validatorStore reqPriceHonest reqPriceForged (by decide) rfl rfl,
   claim_C3_price_integrity.2 validatorStore reqPriceHonest roseSessionConfig ["rose"]
     (by rfl)
     { name := "Rose Oil", images := [], unit_amount := 1500, quantity := 1 } (by decide)⟩

/-- Every rejection of `createCheckoutSession` carries HTTP status
400. -/
theorem createCheckoutSession_error_400 (store : ProductStore) (req : CheckoutRequest)
    (e : Nat × String) (reads : List String)
    (h : createCheckoutSession store req = (.error e, reads)) : e.1 = 400 := by
  unfold createCheckoutSession at h
  cases hri : req.items with
  | none =>
      rw [hri] at h
      dsimp only at h
      rw [Prod.mk.injEq] at h
      obtain ⟨h1, -⟩ := h
      injection h1 with h1
      subst h1
      rfl
  | some items =>
      rw [hri] at h
      dsimp only at h
      split at h
      · rw [Prod.mk.injEq] at h
        obtain ⟨h1, -⟩ := h
        injection h1 with h1
        subst h1
        rfl
      · split at h
        · rw [Prod.mk.injEq] at h
          obtain ⟨h1, -⟩ := h
          injection h1 with h1
          subst h1
          rfl
        · split at h
          · rename_i e2 reads2 hloop
            rw [Prod.mk.injEq] at h
            obtain ⟨h1, -⟩ := h
            injection h1 with h1
            subst h1
            exact processItems_error_400 store items e2 reads2 hloop
          · simp at h

/-- When `createCheckoutSession` accepts a request, every request item
passed every guard of the validation loop. -/
theorem createCheckoutSession_ok_valid (store : ProductStore) (req : CheckoutRequest)
    (items : List ReqItem) (cfg : SessionConfig) (reads : List String)
    (hri : req.items = some items)
    (h : createCheckoutSession store req = (.ok cfg, reads)) :
    ∀ item ∈ items, ∃ pid q p,
      item.productId = some pid ∧ item.quantity = some q ∧ ¬(pid = "") ∧ 1 ≤ q
      ∧ lookupProduct store pid = some p ∧ p.isActive = true
      ∧ ¬(p.category = "physical" ∧ p.inventory ≠ -1 ∧ p.inventory < q) := by
  unfold createCheckoutSession at h
  rw [hri] at h
  dsimp only at h
  split at h
  · simp at h
  · split at h
    · simp at h
    · split at h
      · simp at h
      · rename_i lis ois hasPhysical reads2 hloop
        exact processItems_ok_valid store items lis ois hasPhysical reads2 hloop

/-- C6: request-shape validation.  A missing or empty items list is
rejected 400 "No items provided" with no Catalog Store read; a
non-empty items list with a missing (or empty, hence falsy) redirect
URL is rejected 400 "Missing redirect URLs", also before any read; and
a request one of whose items lacks a productId or quantity or has
quantity < 1 is rejected with a 400 error. -/
theorem claim_C6_request_shape_rejections :
    (∀ (store : ProductStore) (req : CheckoutRequest),
        (req.items = none ∨ req.items = some []) →
        createCheckoutSession store req = (.error (400, "No items provided"), []))
    ∧ (∀ (store : ProductStore) (req : CheckoutRequest) (items : List ReqItem),
        req.items = some items → ¬(items = []) →
        (truthyStr req.successUrl = false ∨ truthyStr req.cancelUrl = false) →
        createCheckoutSession store req = (.error (400, "Missing redirect URLs"), []))
    ∧ (∀ (store : ProductStore) (req : CheckoutRequest) (items : List ReqItem)
          (item : ReqItem),
        req.items = some items → item ∈ items → itemInvalid item = true →
        ∃ msg reads, createCheckoutSession store req = (.error (400, msg), reads)) := by
  refine ⟨?_, ?_, ?_⟩
  · intro store req hor
    unfold createCheckoutSession
    rcases hor with hri | hri
    · rw [hri]
    · rw [hri]
      rfl
  · intro store req items hri hne hurl
    unfold createCheckoutSession
    rw [hri]
    dsimp only
    rw [if_neg (by cases items with
        | nil => exact absurd rfl hne
        | cons a l => simp)]
    rw [if_pos (by rcases hurl with hu | hu <;> simp [hu])]
  · intro store req items item hri hmem hbad
    rcases hres : createCheckoutSession store req with ⟨res, reads⟩
    cases res with
    | error e =>
        obtain ⟨e1, e2⟩ := e
        have h400 : e1 = 400 :=
          createCheckoutSession_error_400 store req (e1, e2) reads hres
        subst h400
        exact ⟨e2, reads, rfl⟩
    | ok cfg =>
        obtain ⟨pid, q, p, hpq, hq, hpe, hq1, -⟩ :=
          createCheckoutSession_ok_valid store req items cfg reads hri hres item hmem
        simp [itemInvalid, truthyStr, hpq, hq] at hbad
        rcases hbad with hbad | hbad
        · exact absurd hbad hpe
        · omega

/-- C6 witness: the rejection theorem applied to an empty items list
(no read performed), a missing successUrl, and a zero-quantity item. -/
theorem claim_C6_request_shape_witness :
    createCheckoutSession validatorStore
        { items := some [], successUrl := some "https://s", cancelUrl := some "https://c" }
      = (.error (400, "No items provided"), [])
    ∧ createCheckoutSession validatorStore
        { items := some [{ productId := some "rose", quantity := some 1,
                           clientPrice := none, clientName := none }],
          successUrl := none, cancelUrl := some "https://c" }
      = (.error (400, "Missing redirect URLs"), [])
    ∧ ∃ msg reads, createCheckoutSession validatorStore
        { items := some [{ productId := some "rose", quantity := some 0,
                           clientPrice := none, clientName := none }],
          successUrl := some "https://s", cancelUrl := some "https://c" }
      = (.error (400, msg), reads) :=
  ⟨claim_C6_request_shape_rejections.1 validatorStore
      { items := some [], successUrl := some "https://s", cancelUrl := some "https://c" }
      (Or.inr rfl),
   claim_C6_request_shape_rejections.2.1 validatorStore
      { items := some [{ productId := some "rose", quantity := some 1,
                         clientPrice := none, clientName := none }],
        successUrl := none, cancelUrl := some "https://c" }
      [{ productId := some "rose", quantity := some 1,
         clientPrice := none, clientName := none }]
      rfl (by decide) (Or.inl rfl),
   claim_C6_request_shape_rejections.2.2 validatorStore
      { items := some [{ productId := some "rose", quantity := some 0,
                         clientPrice := none, clientName := none }],
        successUrl := some "https://s", cancelUrl := some "https://c" }
      [{ productId := some "rose", quantity := some 0,
         clientPrice := none, clientName := none }]
      { productId := some "rose", quantity := some 0,
        clientPrice := none, clientName := none }
      rfl (by decide) (by decide)⟩

/-- A request for three Rose Oils (only 2 in stock). -/
def reqStock3 : CheckoutRequest :=
  { items := some [{ productId := some "rose", quantity := some 3,
                     clientPrice := none, clientName := none }],
    successUrl := some "https://s", cancelUrl := some "https://c" }

/-- A request naming a product id absent from the catalog. -/
def reqGhost : CheckoutRequest :=
  { items := some [{ productId := some "ghost", quantity := some 1,
                     clientPrice := none, clientName := none }],
    successUrl := some "https://s", cancelUrl := some "https://c" }

/-- A request for one unit of the inactive Moon Candle. -/
def reqInactive : CheckoutRequest :=
  { items := some [{ productId := some "moon", quantity := some 1,
                     clientPrice := none, clientName := none }],
    successUrl := some "https://s", cancelUrl := some "https://c" }

/-- C7 counterexample: the claim says every business-rule rejection
message identifies the offending product by name, and that the
inventory=2 / quantity=3 rejection cites "only 2 left".  In the code
the insufficient-inventory message is "Rose Oil only has 2 left in
stock", which does not contain the quoted text "only 2 left"; and the
product-not-found message is "Product not found: ghost", which contains
the id and no product name (the catalog's names are "Rose Oil" and
"Moon Candle", neither of which occurs in it). -/
theorem claim_C7_message_counterexample :
    createCheckoutSession validatorStore reqStock3
      = (.error (400, "Rose Oil only has 2 left in stock"), ["rose"])
    ∧ hasSub "Rose Oil only has 2 left in stock" "only 2 left" = false
    ∧ createCheckoutSession validatorStore reqGhost
      = (.error (400, "Product not found: ghost"), ["ghost"])
    ∧ hasSub "Product not found: ghost" "Rose Oil" = false
    ∧ hasSub "Product not found: ghost" "Moon Candle" = false :=
  ⟨rfl, by decide, rfl, by decide, by decide⟩

/-- When the validation loop rejects, `createCheckoutSession` returns
that rejection unchanged (given a non-empty items list and truthy
redirect URLs). -/
theorem createCheckoutSession_error_of_processItems (store : ProductStore)
    (req : CheckoutRequest) (items : List ReqItem) (e : Nat × String) (reads : List String)
    (hri : req.items = some items) (hne : ¬(items = []))
    (hsu : truthyStr req.successUrl = true) (hcu : truthyStr req.cancelUrl = true)
    (hpi : processItems store items = (.error e, reads)) :
    createCheckoutSession store req = (.error e, reads) := by
  unfold createCheckoutSession
  rw [hri]
  dsimp only
  rw [if_neg (by cases items with
      | nil => exact absurd rfl hne
      | cons a l => simp)]
  rw [if_neg (by simp [hsu, hcu])]
  rw [hpi]

/-- The three business-rule rejections of the validation loop, with
their exact messages, when the first item triggers them. -/
theorem processItems_first_fails (store : ProductStore) (first : ReqItem)
    (rest : List ReqItem) (pid : String) (q : Int)
    (hpq : first.productId = some pid) (hq : first.quantity = some q)
    (hpe : ¬(pid = "")) (hq1 : 1 ≤ q) :
    (lookupProduct store pid = none →
      processItems store (first :: rest)
        = (.error (400, "Product not found: " ++ pid), [pid]))
    ∧ (∀ p, lookupProduct store pid = some p → p.isActive = false →
      processItems store (first :: rest)
        = (.error (400, p.name ++ " is no longer available"), [pid]))
    ∧ (∀ p, lookupProduct store pid = some p → p.isActive = true →
        p.category = "physical" → p.inventory ≠ -1 → p.inventory < q →
      processItems store (first :: rest)
        = (.error (400, p.name ++ " only has " ++ toString p.inventory
                        ++ " left in stock"), [pid])) := by
  have hinv : ¬(itemInvalid first = true) := by
    simp [itemInvalid, truthyStr, hpq, hq]
    exact ⟨hpe, by omega⟩
  refine ⟨?_, ?_, ?_⟩
  · intro hlook
    rw [processItems, if_neg hinv]
    dsimp only
    rw [hpq]
    dsimp only [Option.getD]
    rw [hlook]
  · intro p hlook hina
    rw [processItems, if_neg hinv]
    dsimp only
    rw [hpq]
    dsimp only [Option.getD]
    rw [hlook]
    dsimp only
    rw [if_pos (by simp [hina])]
  · intro p hlook hact hc hfin hlt
    rw [processItems, if_neg hinv]
    dsimp only
    rw [hpq, hq]
    dsimp only [Option.getD]
    rw [hlook]
    dsimp only
    rw [if_neg (by simp [hact]), if_pos (by simp [hc, hfin, hlt])]

/-- C7 amended: a business-rule failure (product not found, product
inactive, or — for physical products with finite inventory —
insufficient stock) fails the whole request with no session built; the
inactive and insufficient-stock messages contain the offending
product's name ("<name> is no longer available", "<name> only has
<inventory> left in stock"), while the not-found message identifies the
offending product by its id ("Product not found: <id>"). -/
theorem claim_C7_business_rule_failures :
    (∀ (store : ProductStore) (req : CheckoutRequest) (items : List ReqItem)
        (cfg : SessionConfig) (reads : List String),
        req.items = some items →
        createCheckoutSession store req = (.ok cfg, reads) →
        ∀ item ∈ items, ∃ pid q p,
          item.productId = some pid ∧ item.quantity = some q
          ∧ lookupProduct store pid = some p ∧ p.isActive = true
          ∧ ¬(p.category = "physical" ∧ p.inventory ≠ -1 ∧ p.inventory < q))
    ∧ (∀ (store : ProductStore) (first : ReqItem) (rest : List ReqItem) (su cu pid : String)
          (q : Int),
        first.productId = some pid → first.quantity = some q → ¬(pid = "") → 1 ≤ q →
        ¬(su = "") → ¬(cu = "") →
        lookupProduct store pid = none →
        createCheckoutSession store
            { items := some (first :: rest), successUrl := some su, cancelUrl := some cu }
          = (.error (400, "Product not found: " ++ pid), [pid]))
    ∧ (∀ (store : ProductStore) (first : ReqItem) (rest : List ReqItem) (su cu pid : String)
          (q : Int) (p : Product),
        first.productId = some pid → first.quantity = some q → ¬(pid = "") → 1 ≤ q →
        ¬(su = "") → ¬(cu = "") →
        lookupProduct store pid = some p → p.isActive = false →
        createCheckoutSession store
            { items := some (first :: rest), successUrl := some su, cancelUrl := some cu }
          = (.error (400, p.name ++ " is no longer available"), [pid]))
    ∧ (∀ (store : ProductStore) (first : ReqItem) (rest : List ReqItem) (su cu pid : String)
          (q : Int) (p : Product),
        first.productId = some pid → first.quantity = some q → ¬(pid = "") → 1 ≤ q →
        ¬(su = "") → ¬(cu = "") →
        lookupProduct store pid = some p → p.isActive = true →
        p.category = "physical" → p.inventory ≠ -1 → p.inventory < q →
        createCheckoutSession store
            { items := some (first :: rest), successUrl := some su, cancelUrl := some cu }
          = (.error (400, p.name ++ " only has " ++ toString p.inventory
                          ++ " left in stock"), [pid])) := by
  refine ⟨?_, ?_, ?_, ?_⟩
  · intro store req items cfg reads hri h item hmem
    obtain ⟨pid, q, p, hpq, hq, -, -, hlook, hact, hstock⟩ :=
      createCheckoutSession_ok_valid store req items cfg reads hri h item hmem
    exact ⟨pid, q, p, hpq, hq, hlook, hact, hstock⟩
  · intro store first rest su cu pid q hpq hq hpe hq1 hsu hcu hlook
    exact createCheckoutSession_error_of_processItems store _ (first :: rest) _ _
      rfl (by simp) (by simp [truthyStr, hsu]) (by simp [truthyStr, hcu])
      ((processItems_first_fails store first rest pid q hpq hq hpe hq1).1 hlook)
  · intro store first rest su cu pid q p hpq hq hpe hq1 hsu hcu hlook hina
    exact createCheckoutSession_error_of_processItems store _ (first :: rest) _ _
      rfl (by simp) (by simp [truthyStr, hsu]) (by simp [truthyStr, hcu])
      ((processItems_first_fails store first rest pid q hpq hq hpe hq1).2.1 p hlook hina)
  · intro store first rest su cu pid q p hpq hq hpe hq1 hsu hcu hlook hact hc hfin hlt
    exact createCheckoutSession_error_of_processItems store _ (first :: rest) _ _
      rfl (by simp) (by simp [truthyStr, hsu]) (by simp [truthyStr, hcu])
      ((processItems_first_fails store first rest pid q hpq hq hpe hq1).2.2 p hlook hact
        hc hfin hlt)

/-- C7 witness: the amended theorem applied to the concrete catalog —
an accepted request, a missing product id, the inactive Moon Candle,
and three Rose Oils against inventory 2. -/
theorem claim_C7_business_rule_witness :
    (∃ pid q p,
        ({ productId := some "rose", quantity := some 1, clientPrice := none,
           clientName := none } : ReqItem).productId = some pid
        ∧ ({ productId := some "rose", quantity := some 1, clientPrice := none,
             clientName := none } : ReqItem).quantity = some q
        ∧ lookupProduct validatorStore pid = some p ∧ p.isActive = true
        ∧ ¬(p.category = "physical" ∧ p.inventory ≠ -1 ∧ p.inventory < q))
    ∧ createCheckoutSession validatorStore reqGhost
      = (.error (400, "Product not found: " ++ "ghost"), ["ghost"])
    ∧ createCheckoutSession validatorStore reqInactive
      = (.error (400, "Moon Candle" ++ " is no longer available"), ["moon"])
    ∧ createCheckoutSession validatorStore reqStock3
      = (.error (400, "Rose Oil" ++ " only has " ++ toString (2 : Int)
                      ++ " left in stock"), ["rose"]) :=
  ⟨claim_C7_business_rule_failures.1 validatorStore reqPriceHonest _ roseSessionConfig
      ["rose"] rfl (by rfl) _ (by decide),
   claim_C7_business_rule_failures.2.1 validatorStore _ [] "https://s" "https://c" "ghost" 1
      rfl rfl (by decide) (by decide) (by decide) (by decide) (by decide),
   claim_C7_business_rule_failures.2.2.1 validatorStore _ [] "https://s" "https://c" "moon" 1
      { name := "Moon Candle", price := 800, category := "physical", inventory := 5,
        isActive := false, images := [], digitalFileUrl := none }
      rfl rfl (by decide) (by decide) (by decide) (by decide) (by decide) (by decide),
   claim_C7_business_rule_failures.2.2.2 validatorStore _ [] "https://s" "https://c" "rose" 3
      { name := "Rose Oil", price := 1500, category := "physical", inventory := 2,
        isActive := true, images := [], digitalFileUrl := none }
      rfl rfl (by decide) (by decide) (by decide) (by decide) (by decide) (by decide)
      (by decide) (by decide) (by decide)⟩
